import Mathlib

/-!
Verification of `PodjPasswordManager/password_manager.py`.

The Python module is embedded shallowly: the sqlite-backed tables become a
`DB` record (an `Option MasterRow` for the singleton `master` table and a
`List CredentialRecord` for the `passwords` table, kept in insertion order as
sqlite would return them without an `ORDER BY`); each method of
`DatabaseManager`, `EncryptionManager` and `PasswordGenerator` becomes a pure
function on that state.  Fallible Python code (sqlite `IntegrityError`,
Fernet `InvalidToken`, `SystemExit`) is embedded with `Except`.  Console
input is passed in as explicit transcripts; console output is not modelled
except where a property distinguishes a printed message from a raised
exception.  SHA-256 (`hashlib.sha256(...).hexdigest()`) is kept abstract as a
function parameter `H : String → String`; the `cryptography.fernet` library,
external to the repository, is modelled by its documented contract
(authenticated encryption: decryption succeeds exactly on tokens produced
under the same key).
-/

namespace PodjPM

/-- Model of the values stored in the `password_encrypted` BLOB column.
A blob is either a well-formed Fernet token produced under some key
(keys are identified abstractly by a `Nat`), or arbitrary bytes that are
not a valid token (malformed or truncated data). -/
inductive Blob where
  | token (keyId : Nat) (plaintext : String)
  | garbage (raw : List Nat)
deriving DecidableEq, Repr

/-- Model of `cryptography.fernet.InvalidToken`, the exception raised by
`Fernet.decrypt` when a token is malformed, truncated, or fails integrity
verification (for example, produced under a different key). -/
inductive DecryptionError where
  | invalidToken
deriving DecidableEq, Repr

/-- Model of the external library call `Fernet(key).decrypt(token)` by its
contract: returns the plaintext exactly when the token was produced by
`Fernet(key).encrypt`; otherwise raises `InvalidToken`. -/
def fernetDecrypt (key : Nat) : Blob → Except DecryptionError String
  | Blob.token keyId plaintext =>
      if keyId = key then Except.ok plaintext
      else Except.error DecryptionError.invalidToken
  | Blob.garbage _ => Except.error DecryptionError.invalidToken

/-- `EncryptionManager.encrypt` (line 115): `self.fernet.encrypt(data.encode())`.
The UTF-8 encode/decode round trip between `str` and `bytes` is the identity
and is left implicit. -/
def encrypt (key : Nat) (data : String) : Blob := Blob.token key data

/-- `EncryptionManager.decrypt` (line 118): `self.fernet.decrypt(token).decode()`. -/
def decrypt (key : Nat) (tok : Blob) : Except DecryptionError String :=
  fernetDecrypt key tok

/-- One row of the `master` table: `password_hash TEXT`, `salt TEXT`
(the fixed `id = 1` column is left implicit in the singleton `Option`). -/
structure MasterRow where
  password_hash : String
  salt : String
deriving DecidableEq, Repr

/-- One row of the `passwords` table: `name TEXT UNIQUE NOT NULL`,
`login TEXT NOT NULL`, `password_encrypted BLOB NOT NULL`
(the autoincrement `id` is left implicit in the list position). -/
structure CredentialRecord where
  name : String
  login : String
  password_encrypted : Blob
deriving DecidableEq, Repr

/-- The sqlite database state: the singleton `master` row and the rows of
the `passwords` table in insertion order. -/
structure DB where
  master : Option MasterRow
  passwords : List CredentialRecord
deriving DecidableEq, Repr

/-- `DatabaseManager._hash_password` (line 95):
`hashlib.sha256((password + salt).encode()).hexdigest()`, with SHA-256
abstracted as `H`. -/
def _hash_password (H : String → String) (password salt : String) : String :=
  H (password ++ salt)

/-- `DatabaseManager.set_master_password` (line 49): `INSERT OR REPLACE INTO
master (id, password_hash, salt) VALUES (1, ?, ?)`.  The randomly generated
salt (`secrets.token_hex(16)`) is passed in as a parameter. -/
def set_master_password (H : String → String) (salt : String) (db : DB)
    (password : String) : DB :=
  { db with master := some ⟨_hash_password H password salt, salt⟩ }

/-- `DatabaseManager.get_master_password` (line 59):
`SELECT password_hash, salt FROM master WHERE id = 1`. -/
def get_master_password (db : DB) : Option MasterRow := db.master

/-- `DatabaseManager.verify_master_password` (line 65): returns `False` when
no master row exists, otherwise compares the recomputed hash (with the stored
salt) against the stored hash. -/
def verify_master_password (H : String → String) (db : DB) (password : String) :
    Bool :=
  match get_master_password db with
  | none => false
  | some row => _hash_password H password row.salt == row.password_hash

/-- Model of `sqlite3.IntegrityError`, raised by a plain `INSERT` that
violates the `UNIQUE` constraint on `passwords.name`. -/
inductive SqlError where
  | uniqueViolation
deriving DecidableEq, Repr

/-- `DatabaseManager.add_password` (line 72): a plain
`INSERT INTO passwords (name, login, password_encrypted) VALUES (?, ?, ?)`.
Because the schema declares `name TEXT UNIQUE NOT NULL`, inserting a name
that is already present raises `sqlite3.IntegrityError` and changes nothing;
otherwise the new row is appended and committed. -/
def add_password (db : DB) (name login : String) (encrypted_password : Blob) :
    Except SqlError DB :=
  if db.passwords.any fun r => r.name == name then
    Except.error SqlError.uniqueViolation
  else
    Except.ok { db with passwords := db.passwords ++ [⟨name, login, encrypted_password⟩] }

/-- `DatabaseManager.get_password` (line 79):
`SELECT * FROM passwords WHERE name = ?` followed by `fetchone()`. -/
def get_password (db : DB) (name : String) : Option CredentialRecord :=
  db.passwords.find? fun r => r.name == name

/-- Comparison of `(name, login)` rows by `name`, the sqlite `ORDER BY name`
order (byte order on TEXT, which is the code-point order on `String`). -/
def nameLe (a b : String × String) : Prop := a.1 ≤ b.1

instance : DecidableRel nameLe :=
  fun a b => inferInstanceAs (Decidable (a.1 ≤ b.1))

instance : IsTotal (String × String) nameLe :=
  ⟨fun a b => le_total a.1 b.1⟩

instance : IsTrans (String × String) nameLe :=
  ⟨fun _ _ _ hab hbc => le_trans hab hbc⟩

/-- `DatabaseManager.list_passwords` (line 84):
`SELECT name, login FROM passwords ORDER BY name`. -/
def list_passwords (db : DB) : List (String × String) :=
  List.insertionSort nameLe (db.passwords.map fun r => (r.name, r.login))

/-- `DatabaseManager.delete_password` (line 89):
`DELETE FROM passwords WHERE name = ?` followed by a commit. -/
def delete_password (db : DB) (name : String) : DB :=
  { db with passwords := db.passwords.filter fun r => !(r.name == name) }

/-- The generator alphabet (lines 168-173): `string.ascii_lowercase +
string.ascii_uppercase + string.digits + "!@#$%^&*()"`. -/
def chars : List Char :=
  "abcdefghijklmnopqrstuvwxyz".data ++ "ABCDEFGHIJKLMNOPQRSTUVWXYZ".data ++
    "0123456789".data ++ "!@#$%^&*()".data

/-- The password construction of `generate_password_interactive` (line 175):
`"".join(secrets.choice(chars) for _ in range(length))`.  The random draws of
`secrets.choice` are abstracted as an oracle `choice` giving the index drawn
at each iteration.  Python's `range(length)` is empty for `length <= 0`,
which `Int.toNat` models exactly. -/
def generate_password (choice : Nat → Fin chars.length) (length : Int) : String :=
  String.mk ((List.range length.toNat).map fun i => chars.get (choice i))

/-- `PasswordGenerator.generate_password_interactive` (line 165):
`length = int(input(...) or 16)` then the join above.  An empty input line
(`none`) falls back to the default 16. -/
def generate_password_interactive (choice : Nat → Fin chars.length)
    (lengthInput : Option Int) : String :=
  generate_password choice (lengthInput.getD 16)

/-- `PasswordGenerator.setup_master_password` inner loop (lines 138-145) over
a transcript of `(p1, p2)` prompt pairs: the first pair with `p1` non-empty
(Python truthiness of `p1`) and `p1 == p2` is accepted and returned; other
pairs print a mismatch message and re-prompt.  `none` models a transcript
exhausted without acceptance (the Python loop would still be prompting). -/
def setup_master_password : List (String × String) → Option String
  | [] => none
  | (p1, p2) :: rest =>
      if p1 ≠ "" ∧ p1 = p2 then some p1 else setup_master_password rest

/-- The observable outcome printed by `PasswordGenerator.get_password`:
either the not-found message (line 182) or the login and decrypted password
(lines 185-186). -/
inductive GetResult where
  | notFound
  | shown (login password : String)
deriving DecidableEq, Repr

/-- `PasswordGenerator.get_password` (lines 178-186): looks the name up; if
absent prints the not-found message and returns.  If present it calls
`self.crypto.decrypt(...)` with no surrounding `try`/`except`, so a
decryption failure propagates out of the method as an exception
(`Except.error`). -/
def pg_get_password (key : Nat) (db : DB) (name : String) :
    Except DecryptionError GetResult :=
  match get_password db name with
  | none => Except.ok GetResult.notFound
  | some row =>
      match decrypt key row.password_encrypted with
      | Except.error e => Except.error e
      | Except.ok password => Except.ok (GetResult.shown row.login password)

/-- Model of Python's `SystemExit`: `raise SystemExit(msg)` with a string
argument makes the interpreter print `msg` and exit with status 1. -/
structure SysExit where
  code : Nat
  msg : String
deriving DecidableEq, Repr

/-- The `SystemExit` raised on line 153: `Слишком много попыток.`,
exit status 1. -/
def tooManyAttempts : SysExit := ⟨1, "Слишком много попыток."⟩

/-- `PasswordGenerator.authenticate` (lines 147-153): the `for _ in range(3)`
loop unrolled over an input transcript.  Each iteration reads one password;
a successful verification returns, and after three failures
`SystemExit("Слишком много попыток.")` is raised. -/
def authenticate (H : String → String) (db : DB) (input : Nat → String) :
    Except SysExit Unit :=
  if verify_master_password H db (input 0) then Except.ok ()
  else if verify_master_password H db (input 1) then Except.ok ()
  else if verify_master_password H db (input 2) then Except.ok ()
  else Except.error tooManyAttempts

/-- `PasswordGenerator.setup_master_password` (lines 133-145) as a state
transformer: if a master row already exists it returns immediately,
otherwise the accepted password from the prompt transcript is persisted via
`set_master_password`. -/
def setup_db (H : String → String) (salt : String) (db : DB)
    (entries : List (String × String)) : Option DB :=
  if (get_master_password db).isSome then some db
  else (setup_master_password entries).map (set_master_password H salt db)

/-- One menu selection of `show_menu` (lines 202-227), with the prompt
answers the selected operation reads bundled in. -/
inductive MenuChoice where
  | addC (name login password : String)
  | getC (name : String)
  | listC
  | deleteC (name : String)
  | generateC (lengthInput : Option Int)
  | quitC
  | invalidC (s : String)
deriving DecidableEq, Repr

/-- A credential-store operation (an access to the `passwords` table),
recorded in the session trace. -/
inductive StoreOp where
  | addOp (name login : String) (blob : Blob)
  | getOp (name : String)
  | listOp
  | deleteOp (name : String)
deriving DecidableEq, Repr

/-- The uncaught Python exceptions a session can end with, plus a marker for
a transcript exhausted while the code is still blocked on a prompt. -/
inductive PyExc where
  | systemExit (code : Nat) (msg : String)
  | integrityError
  | invalidToken
  | blockedOnInput
deriving DecidableEq, Repr

/-- `PasswordGenerator.show_menu` (lines 202-227) over a transcript of menu
selections, returning the trace of credential-store operations performed and
the final state.  `add_password` and `get_password` have no exception
handlers in the menu loop, so an `IntegrityError` or `InvalidToken` raised
inside them aborts the loop. -/
def show_menu (key : Nat) : DB → List MenuChoice → List StoreOp × Except PyExc DB
  | db, [] => ([], Except.ok db)
  | db, MenuChoice.addC name login password :: rest =>
      let enc := encrypt key password
      match add_password db name login enc with
      | Except.error _ =>
          ([StoreOp.addOp name login enc], Except.error PyExc.integrityError)
      | Except.ok db1 =>
          let res := show_menu key db1 rest
          (StoreOp.addOp name login enc :: res.1, res.2)
  | db, MenuChoice.getC name :: rest =>
      match pg_get_password key db name with
      | Except.error _ => ([StoreOp.getOp name], Except.error PyExc.invalidToken)
      | Except.ok _ =>
          let res := show_menu key db rest
          (StoreOp.getOp name :: res.1, res.2)
  | db, MenuChoice.listC :: rest =>
      let res := show_menu key db rest
      (StoreOp.listOp :: res.1, res.2)
  | db, MenuChoice.deleteC name :: rest =>
      let res := show_menu key (delete_password db name) rest
      (StoreOp.deleteOp name :: res.1, res.2)
  | db, MenuChoice.generateC _ :: rest => show_menu key db rest
  | db, MenuChoice.quitC :: _ => ([], Except.ok db)
  | db, MenuChoice.invalidC _ :: rest => show_menu key db rest

/-- A whole program run, `PasswordGenerator().show_menu()` (line 232):
`__init__` runs `setup_master_password` then `authenticate`; a `SystemExit`
raised by `authenticate` propagates out of `__init__`, so `show_menu` is
never reached and no credential-store operation happens. -/
def runSession (H : String → String) (key : Nat) (salt : String) (db : DB)
    (entries : List (String × String)) (authInput : Nat → String)
    (menu : List MenuChoice) : List StoreOp × Except PyExc DB :=
  match setup_db H salt db entries with
  | none => ([], Except.error PyExc.blockedOnInput)
  | some db1 =>
      match authenticate H db1 authInput with
      | Except.error e => ([], Except.error (PyExc.systemExit e.code e.msg))
      | Except.ok _ => show_menu key db1 menu

/-- A store holding one credential named `gh`. -/
def dbDup : DB := ⟨none, [⟨"gh", "l1", Blob.token 0 "s1"⟩]⟩

/-- A store whose `gh` record holds bytes that are not a valid Fernet token. -/
def dbBadBlob : DB := ⟨none, [⟨"gh", "alice", Blob.garbage [0]⟩]⟩

/-- A store whose `gh` record was encrypted under key 1, not key 0. -/
def dbWrongKey : DB := ⟨none, [⟨"gh", "alice", Blob.token 1 "s"⟩]⟩

/-- A store with a master row for password `p`, salt `t`, under the identity
hash. -/
def dbMaster : DB := ⟨some ⟨"pt", "t"⟩, []⟩

/-- A store with one credential, used for the deletion no-op witness. -/
def dbOne : DB := ⟨none, [⟨"gh", "l", Blob.token 0 "s"⟩]⟩

/-- A store with two credentials whose names are out of order. -/
def dbTwo : DB :=
  ⟨none, [⟨"b", "lb", Blob.token 0 "sb"⟩, ⟨"a", "la", Blob.token 0 "sa"⟩]⟩

/-- A constant draw oracle for the generator. -/
def choice0 : Nat → Fin chars.length := fun _ => ⟨0, by decide⟩

theorem string_append_right_cancel {a b t : String} (h : a ++ t = b ++ t) :
    a = b := by
  apply String.ext
  have h2 := congrArg String.data h
  rw [String.data_append, String.data_append] at h2
  exact List.append_cancel_right h2

/-- Claim C1, counterexample: adding a credential whose name `gh` is already
stored does not replace the prior record — the plain `INSERT` violates the
`UNIQUE` constraint on `name` and raises `sqlite3.IntegrityError`, so there
is no post-state holding the new login and secret. -/
theorem add_password_duplicate_counterexample :
    add_password dbDup "gh" "l2" (Blob.token 0 "s2") =
      Except.error SqlError.uniqueViolation := rfl

/-- Claim C1, amended: for every name already present in the store,
`add_password` with that name fails with a uniqueness violation
(`sqlite3.IntegrityError`) and produces no new state, leaving the prior
record with its old login and secret. -/
theorem add_password_duplicate_rejected (db : DB) (name login : String)
    (enc : Blob) (h : (db.passwords.any fun r => r.name == name) = true) :
    add_password db name login enc = Except.error SqlError.uniqueViolation := by
  simp only [add_password, h, if_true]

/-- Witness for `add_password_duplicate_rejected` at a concrete store. -/
theorem add_password_duplicate_rejected_witness :
    add_password dbDup "gh" "l3" (Blob.token 0 "s3") =
      Except.error SqlError.uniqueViolation :=
  add_password_duplicate_rejected dbDup "gh" "l3" (Blob.token 0 "s3") (by decide)

/-- Claim C2, counterexample: retrieving the credential `gh` whose stored
blob is not a valid Fernet token makes `PasswordGenerator.get_password`
raise `InvalidToken` out of the controller (there is no `try`/`except`),
instead of surfacing a user-facing message. -/
theorem get_password_error_escapes :
    pg_get_password 0 dbBadBlob "gh" =
      Except.error DecryptionError.invalidToken := rfl

/-- Claim C2, amended: whenever the looked-up record's ciphertext fails to
decrypt (malformed, truncated, or wrong key), the decryption error
propagates out of `PasswordGenerator.get_password` as an uncaught exception;
only the absent-record case is rendered as the user-facing not-found
message. -/
theorem get_password_propagates_decrypt_error (key : Nat) (db : DB)
    (name : String) (r : CredentialRecord) (e : DecryptionError)
    (hfind : get_password db name = some r)
    (hdec : decrypt key r.password_encrypted = Except.error e) :
    pg_get_password key db name = Except.error e := by
  simp only [pg_get_password, hfind, hdec]

/-- Witness for `get_password_propagates_decrypt_error`: a token encrypted
under key 1 fails to decrypt under key 0 and the error escapes. -/
theorem get_password_propagates_witness :
    pg_get_password 0 dbWrongKey "gh" =
      Except.error DecryptionError.invalidToken :=
  get_password_propagates_decrypt_error 0 dbWrongKey "gh"
    ⟨"gh", "alice", Blob.token 1 "s"⟩ DecryptionError.invalidToken
    (by decide) rfl

/-- Claim C3, counterexample: with requested length 0 (`< 1`) the generator
returns the empty string normally — `range(0)` is empty, the join produces
`""`, and no `InvalidLengthError` is raised (no such error exists in the
code). -/
theorem generate_zero_counterexample :
    generate_password_interactive choice0 (some 0) = "" := by decide

/-- Claim C3, amended: for every integer length below 1 the generator does
not fail; it returns the empty string, because Python's `range` of a
non-positive bound is empty. -/
theorem generate_nonpositive_empty (choice : Nat → Fin chars.length)
    (n : Int) (h : n < 1) :
    generate_password_interactive choice (some n) = "" := by
  have hn : n.toNat = 0 := Int.toNat_of_nonpos (by omega)
  simp [generate_password_interactive, generate_password, hn]

/-- Witness for `generate_nonpositive_empty` at length `-1`. -/
theorem generate_nonpositive_empty_witness :
    generate_password_interactive choice0 (some (-1)) = "" :=
  generate_nonpositive_empty choice0 (-1) (by decide)

/-- Claim C4: for every secret string `s`, decrypting the result of
encrypting `s` under the same key returns `s`:
`decrypt(encrypt(s)) == s`. -/
theorem decrypt_encrypt (key : Nat) (s : String) :
    decrypt key (encrypt key s) = Except.ok s := by
  simp [decrypt, encrypt, fernetDecrypt]

/-- Claim C5: with the stored master row holding `H(p ++ t)` and salt `t`,
verification recomputes the candidate's hash with the stored salt and
compares: `verify p = true`, and `verify q = false` for every `q ≠ p`
(under the standard idealisation that the hash is collision-free,
expressed as injectivity of `H`). -/
theorem verify_master_password_correct (H : String → String)
    (hH : Function.Injective H) (p t : String) (db : DB)
    (hm : db.master = some ⟨_hash_password H p t, t⟩) :
    verify_master_password H db p = true ∧
      ∀ q, q ≠ p → verify_master_password H db q = false := by
  constructor
  · simp [verify_master_password, get_master_password, hm]
  · intro q hq
    simp only [verify_master_password, get_master_password, hm]
    rw [beq_eq_false_iff_ne]
    intro hcol
    exact hq (string_append_right_cancel (hH hcol))

/-- Witness for `verify_master_password_correct` with the identity hash,
password `p`, salt `t`: the right password verifies, a wrong one does not. -/
theorem verify_master_password_correct_witness :
    verify_master_password (fun s => s) dbMaster "p" = true ∧
      verify_master_password (fun s => s) dbMaster "q" = false := by
  have h := verify_master_password_correct (fun s => s) Function.injective_id
    "p" "t" dbMaster (by decide)
  exact ⟨h.1, h.2 "q" (by decide)⟩

/-- Claim C6: when the first three password attempts all fail verification,
the session raises `SystemExit` (exit status 1, non-zero), the menu is never
reached, and the trace of credential-store operations is empty — no store
operation happens after the third failure. -/
theorem lockout_after_three_failures (H : String → String) (key : Nat)
    (salt : String) (db db1 : DB) (entries : List (String × String))
    (authInput : Nat → String) (menu : List MenuChoice)
    (hsetup : setup_db H salt db entries = some db1)
    (h0 : verify_master_password H db1 (authInput 0) = false)
    (h1 : verify_master_password H db1 (authInput 1) = false)
    (h2 : verify_master_password H db1 (authInput 2) = false) :
    runSession H key salt db entries authInput menu =
      ([], Except.error (PyExc.systemExit 1 "Слишком много попыток.")) ∧
      (1 : Nat) ≠ 0 := by
  refine ⟨?_, one_ne_zero⟩
  simp [runSession, hsetup, authenticate, h0, h1, h2, tooManyAttempts]

/-- Witness for `lockout_after_three_failures`: a session over `dbMaster`
where every attempt is the wrong password `x`. -/
theorem lockout_witness :
    runSession (fun s => s) 0 "t" dbMaster [] (fun _ => "x") [] =
      ([], Except.error (PyExc.systemExit 1 "Слишком много попыток.")) ∧
      (1 : Nat) ≠ 0 :=
  lockout_after_three_failures (fun s => s) 0 "t" dbMaster dbMaster []
    (fun _ => "x") [] (by decide) (by decide) (by decide) (by decide)

/-- Claim C7: `list_passwords` returns exactly the `(name, login)` pairs of
the stored records (a permutation of their projections — so no decrypted
secret and no encrypted blob appears in the output), sorted by name in
ascending order. -/
theorem list_passwords_spec (db : DB) :
    List.Sorted nameLe (list_passwords db) ∧
      List.Perm (list_passwords db) (db.passwords.map fun r => (r.name, r.login)) ∧
      ∀ p ∈ list_passwords db, ∃ r ∈ db.passwords, p = (r.name, r.login) := by
  refine ⟨List.sorted_insertionSort nameLe _, List.perm_insertionSort nameLe _, ?_⟩
  intro p hp
  have hmem : p ∈ db.passwords.map fun r => (r.name, r.login) :=
    (List.perm_insertionSort nameLe _).mem_iff.mp hp
  rcases List.mem_map.mp hmem with ⟨r, hr, hpr⟩
  exact ⟨r, hr, hpr.symm⟩

/-- Witness for `list_passwords_spec` on a two-record store. -/
theorem list_passwords_spec_witness :
    List.Sorted nameLe (list_passwords dbTwo) ∧
      List.Perm (list_passwords dbTwo)
        (dbTwo.passwords.map fun r => (r.name, r.login)) :=
  ⟨(list_passwords_spec dbTwo).1, (list_passwords_spec dbTwo).2.1⟩

/-- Claim C8: deleting a name that is not in the store leaves the store
unchanged; `delete_password` is total (`DELETE` of no rows is not an error),
so nothing is raised. -/
theorem delete_password_absent_noop (db : DB) (name : String)
    (h : get_password db name = none) :
    delete_password db name = db := by
  unfold get_password at h
  rw [List.find?_eq_none] at h
  unfold delete_password
  have hf : db.passwords.filter (fun r => !(r.name == name)) = db.passwords := by
    apply List.filter_eq_self.mpr
    intro a ha
    simpa using h a ha
  rw [hf]

/-- Witness for `delete_password_absent_noop`: deleting the absent name
`nope` from a one-record store. -/
theorem delete_password_absent_noop_witness :
    delete_password dbOne "nope" = dbOne :=
  delete_password_absent_noop dbOne "nope" (by decide)

/-- Claim C9: when no master row exists, verification returns `false` for
every candidate (the `if not row` branch), without raising. -/
theorem verify_no_master (H : String → String) (db : DB) (q : String)
    (h : db.master = none) : verify_master_password H db q = false := by
  simp [verify_master_password, get_master_password, h]

/-- Witness for `verify_no_master` on the empty store. -/
theorem verify_no_master_witness :
    verify_master_password (fun s => s) (DB.mk none []) "x" = false :=
  verify_no_master (fun s => s) (DB.mk none []) "x" rfl

/-- Claim C10: first-run setup accepts a pair of entries only when the first
is non-empty and the two are equal (so the persisted master password is
never empty); a pair of matching empty entries is rejected and the loop
re-prompts; a matching non-empty pair is accepted immediately. -/
theorem setup_master_password_spec :
    (∀ entries p, setup_master_password entries = some p →
        p ≠ "" ∧ (p, p) ∈ entries) ∧
      (∀ entries, setup_master_password (("", "") :: entries) =
        setup_master_password entries) ∧
      (∀ p entries, p ≠ "" →
        setup_master_password ((p, p) :: entries) = some p) := by
  refine ⟨?_, ?_, ?_⟩
  · intro entries
    induction entries with
    | nil => intro p hp; exact absurd hp (by simp [setup_master_password])
    | cons e rest ih =>
      obtain ⟨p1, p2⟩ := e
      intro p hp
      unfold setup_master_password at hp
      by_cases hc : p1 ≠ "" ∧ p1 = p2
      · rw [if_pos hc] at hp
        injection hp with hp1
        subst hp1
        refine ⟨hc.1, ?_⟩
        rw [hc.2]
        exact List.mem_cons_self _ _
      · rw [if_neg hc] at hp
        obtain ⟨h1, h2⟩ := ih p hp
        exact ⟨h1, List.mem_cons_of_mem _ h2⟩
  · intro entries
    rw [setup_master_password, if_neg]
    simp
  · intro p entries hp
    unfold setup_master_password
    rw [if_pos ⟨hp, rfl⟩]

/-- Witness for `setup_master_password_spec`: the pair `(a, a)` is accepted
and non-empty, and a leading empty-empty pair is skipped. -/
theorem setup_master_password_spec_witness :
    ("a" ≠ "" ∧ ("a", "a") ∈ [("a", "a")]) ∧
      setup_master_password (("", "") :: []) = setup_master_password [] :=
  ⟨setup_master_password_spec.1 [("a", "a")] "a" (by decide),
    setup_master_password_spec.2.1 []⟩

end PodjPM
